import Mathlib

/-
Verification of the transcript-export pipeline of WhisperDesk
(`transcribe_audio.py`): the timestamp formatter `format_time`, the SRT
subtitle writer, the JSON structured record, and the file-system effect
sequence of `save_transcript`.

Numeric model.  Python floats are IEEE-754 binary64 values.  The embedding
represents every float by the rational number it denotes exactly, and
models the one rounding operation occurring inside `format_time` — the
multiplication `(seconds % 1) * 1000` — by `toBinary64`, round-to-nearest,
ties-to-even at 53 significant bits (subnormals and overflow do not arise
in the modeled range and are not modeled).  Python's float `%` is exact
(`fmod` never rounds for operands of like sign), and `//` returns the
floor of the quotient rounded to binary64; both are modeled accordingly.
Rational arithmetic is written with `Rat.divInt`-based helpers so that all
definitions evaluate inside the kernel; the helpers are proved equal to
the ordinary field operations below.
-/

/-- Embed an integer as a rational. -/
def ofInt (m : ℤ) : ℚ := Rat.divInt m 1

/-- Exact product of two rationals. -/
def pymul (a b : ℚ) : ℚ := Rat.divInt (a.num * b.num) ((a.den : ℤ) * (b.den : ℤ))

/-- Exact difference of two rationals. -/
def pysub (a b : ℚ) : ℚ :=
  Rat.divInt (a.num * (b.den : ℤ) - b.num * (a.den : ℤ)) ((a.den : ℤ) * (b.den : ℤ))

/-- Exact quotient of two rationals. -/
def pydiv (a b : ℚ) : ℚ := Rat.divInt (a.num * (b.den : ℤ)) ((a.den : ℤ) * b.num)

/-- Exact negation of a rational. -/
def qneg (a : ℚ) : ℚ := Rat.divInt (-a.num) (a.den : ℤ)

/-- Python's `int()` on a real value: truncation toward zero. -/
def pyint (q : ℚ) : ℤ := q.num.tdiv (q.den : ℤ)

/-- Python's float `%` for a positive modulus: `a - b * floor(a / b)`.  For
nonnegative operands this is C `fmod`, which is exact in binary64, so no
rounding step is inserted. -/
def pymod (a b : ℚ) : ℚ := pysub a (pymul b (ofInt (pydiv a b).floor))

/-- Find the binary exponent: `normExp fuel a 0 = e` with `a / 2^e ∈ [1, 2)`
for positive `a` (fuel 1100 covers every positive binary64 magnitude). -/
def normExp : ℕ → ℚ → ℤ → ℤ
  | 0, _, e => e
  | fuel + 1, a, e =>
    if a < ofInt 1 then normExp fuel (pymul a (ofInt 2)) (e - 1)
    else if ofInt 2 ≤ a then normExp fuel (pydiv a (ofInt 2)) (e + 1)
    else e

/-- Powers of two with integer exponent. -/
def pow2 (e : ℤ) : ℚ :=
  if 0 ≤ e then ofInt (Int.ofNat (2 ^ e.toNat)) else Rat.divInt 1 (Int.ofNat (2 ^ (-e).toNat))

/-- Round a rational to the nearest integer, ties to even. -/
def roundHalfEven (q : ℚ) : ℤ :=
  let f := q.floor
  let r := pysub q (ofInt f)
  if r < Rat.divInt 1 2 then f
  else if Rat.divInt 1 2 < r then f + 1
  else if f % 2 = 0 then f else f + 1

/-- Round a real (rational) value to the nearest IEEE-754 binary64 value,
ties to even: the value a Python float literal or float product denotes. -/
def toBinary64 (q : ℚ) : ℚ :=
  if q.num = 0 then ofInt 0
  else
    let a := if q.num < 0 then qneg q else q
    let e := normExp 1100 a 0 - 52
    let m := roundHalfEven (pydiv a (pow2 e))
    if q.num < 0 then qneg (pymul (ofInt m) (pow2 e)) else pymul (ofInt m) (pow2 e)

/-- Python's float floor division `a // b`: the floor of the exact quotient,
rounded to binary64. -/
def pyfloordiv (a b : ℚ) : ℚ := toBinary64 (ofInt (pydiv a b).floor)

/-- Zero-padded decimal rendering of an integer, Python `f"{n:0wd}"`. -/
def zpad (w : ℕ) (n : ℤ) : String :=
  if n < 0 then
    let s := toString (-n).toNat
    "-" ++ String.mk (List.replicate (w - 1 - s.length) '0') ++ s
  else
    let s := toString n.toNat
    String.mk (List.replicate (w - s.length) '0') ++ s

/-- Source `transcribe_audio.format_time`: format a seconds value in SRT
form `HH:MM:SS,mmm`.  The argument is the rational value of the binary64
input; of the arithmetic steps of the source only the multiplication by
1000 rounds, and it passes through `toBinary64` accordingly. -/
def format_time (seconds : ℚ) : String :=
  let hours := pyint (pyfloordiv seconds (ofInt 3600))
  let minutes := pyint (pyfloordiv (pymod seconds (ofInt 3600)) (ofInt 60))
  let secs := pyint (pymod seconds (ofInt 60))
  let millisecs := pyint (toBinary64 (pymul (pymod seconds (ofInt 1)) (ofInt 1000)))
  zpad 2 hours ++ ":" ++ zpad 2 minutes ++ ":" ++ zpad 2 secs ++ "," ++ zpad 3 millisecs

/-
Data model.  `TranscriptionResult` is the dictionary handed to
`save_transcript` (keys `"text"`, `"language"`, `"segments"`); a `Segment`
is one entry of `result["segments"]` (keys `"start"`, `"end"`, `"text"`).
Times are the rational values of the binary64 floats.
-/

/-- One timed segment of the transcription. -/
structure Segment where
  start : ℚ
  «end» : ℚ
  text : String
deriving DecidableEq

/-- The transcription result handed to `save_transcript`. -/
structure TranscriptionResult where
  text : String
  language : String
  segments : List Segment
deriving DecidableEq

/-- Python `str.strip()`: remove leading and trailing whitespace.  The ASCII
whitespace characters are modeled; Python additionally strips the rarer
Unicode space characters, which the claims do not exercise. -/
def isPySpace (c : Char) : Bool :=
  c = ' ' || c = '\t' || c = '\n' || c = '\r' || c = '\x0b' || c = '\x0c'

/-- Python `str.strip()` on a string. -/
def pystrip (s : String) : String :=
  String.mk (((s.data.dropWhile isPySpace).reverse.dropWhile isPySpace).reverse)

/-- One SRT subtitle block, the body of the write loop of `save_transcript`:
`f"{i}\n{start_time} --> {end_time}\n{text}\n\n"`. -/
def srt_block (i : ℕ) (segment : Segment) : String :=
  toString i ++ "\n" ++ format_time segment.start ++ " --> " ++
    format_time segment.«end» ++ "\n" ++ pystrip segment.text ++ "\n\n"

/-- Python `enumerate(result["segments"], 1)`: the segments paired with the
1-based indices, in source order. -/
def srt_items (segments : List Segment) : List (ℕ × Segment) :=
  (List.range' 1 segments.length).zip segments

/-- The full content written to `transcript.srt`: the concatenation of the
blocks of the write loop. -/
def srt_content (result : TranscriptionResult) : String :=
  String.join ((srt_items result.segments).map (fun p => srt_block p.1 p.2))

/-
JSON model: `json.dump(result, f, indent=2, ensure_ascii=False)`.
-/

/-- Python `json` string escaping with `ensure_ascii=False`: `"` and `\`
get a backslash escape, the five control characters with short escapes use
them, the remaining control characters below U+0020 become `\u00XX`, and
every other character — all non-ASCII included — is emitted literally. -/
def escChar (c : Char) : List Char :=
  if c = '"' then ['\\', '"']
  else if c = '\\' then ['\\', '\\']
  else if c = '\x08' then ['\\', 'b']
  else if c = '\x0c' then ['\\', 'f']
  else if c = '\n' then ['\\', 'n']
  else if c = '\r' then ['\\', 'r']
  else if c = '\t' then ['\\', 't']
  else if c.toNat < 32 then ['\\', 'u', '0', '0', Nat.digitChar (c.toNat / 16), Nat.digitChar (c.toNat % 16)]
  else [c]

/-- Escape every character of a list in sequence. -/
def escL : List Char → List Char
  | [] => []
  | c :: cs => escChar c ++ escL cs

/-- A JSON string literal: the escaped text between double quotes. -/
def jsonString (s : String) : String := "\"" ++ String.mk (escL s.data) ++ "\""

/-- Python's `json` prints a float as its shortest round-tripping decimal
(`float.__repr__`); that rendering algorithm is part of the interpreter,
not of this repository, and none of the claims depend on the digits
chosen, so the model renders the exact rational value instead. -/
def renderNum (q : ℚ) : String := toString q.num ++ "/" ++ toString q.den

/-- One segment object as `json.dump` with `indent=2` prints it at depth 2. -/
def renderSegment (segment : Segment) : String :=
  "    \x7b\n      \"start\": " ++ renderNum segment.start ++
    ",\n      \"end\": " ++ renderNum segment.«end» ++
    ",\n      \"text\": " ++ jsonString segment.text ++ "\n    \x7d"

/-- The `"segments"` array as `json.dump` with `indent=2` prints it. -/
def renderSegments : List Segment → String
  | [] => "[]"
  | s :: ss => "[\n" ++ String.intercalate ",\n" ((s :: ss).map renderSegment) ++ "\n  ]"

/-- The full content written to `transcript.json`: the result dictionary
serialized with `indent=2, ensure_ascii=False`, keys in insertion order. -/
def jsonDump (result : TranscriptionResult) : String :=
  "\x7b\n  \"text\": " ++ jsonString result.text ++
    ",\n  \"language\": " ++ jsonString result.language ++
    ",\n  \"segments\": " ++ renderSegments result.segments ++ "\n\x7d"

/-
File-system model.  `save_transcript` performs four effects in order: one
`os.makedirs(output_dir, exist_ok=True)` and three whole-file writes.  A
file system is a set of existing directories plus a map from paths to file
contents; an oracle decides which effects the environment lets succeed
(permissions, disk, …).  `makedirs` with `exist_ok=False` additionally
fails by itself when the leaf directory already exists.
-/

/-- A file system: which directories exist, and the content of each file. -/
structure FS where
  dirs : String → Bool
  files : String → Option String

/-- One observable effect of `save_transcript`. -/
inductive Effect where
  | makedirs (path : String) (exist_ok : Bool)
  | write (path : String) (content : String)
deriving DecidableEq

/-- The path an effect touches — the path a filesystem error reports. -/
def effectPath : Effect → String
  | .makedirs p _ => p
  | .write p _ => p

/-- Split a list of characters at every slash. -/
def splitSlash : List Char → List (List Char)
  | [] => [[]]
  | c :: cs =>
    match splitSlash cs with
    | [] => [[]]
    | g :: gs => if c = '/' then [] :: g :: gs else (c :: g) :: gs

/-- Every directory `os.makedirs` creates for a path: each proper prefix of
the path at a slash, and the path itself. -/
def ancestors (path : String) : List String :=
  let parts := splitSlash path.data
  (List.range parts.length).map (fun i => String.intercalate "/" ((parts.take (i + 1)).map String.mk))

/-- Apply one effect to the file system: `makedirs` creates the directory
and all intermediate directories, a write stores the full content at the
path, overwriting. -/
def applyEffect (fs : FS) : Effect → FS
  | .makedirs p _ => { fs with dirs := fun q => fs.dirs q || decide (q ∈ ancestors p) }
  | .write p c => { fs with files := fun q => if q = p then some c else fs.files q }

/-- Intrinsic failure of an effect: `makedirs` with `exist_ok=False` raises
`FileExistsError` when the directory already exists; nothing else fails
intrinsically. -/
def effectFails (fs : FS) : Effect → Bool
  | .makedirs p ex => !ex && fs.dirs p
  | .write _ _ => false

/-- Run effects in order.  The first effect the oracle refuses or that
fails intrinsically stops the run; its path is the error, and the file
system keeps everything already performed — no cleanup. -/
def runEffects (ok : Effect → Bool) : FS → List Effect → FS × Option String
  | fs, [] => (fs, none)
  | fs, e :: es =>
    if ok e && !effectFails fs e then runEffects ok (applyEffect fs e) es
    else (fs, some (effectPath e))

/-- Whether a path ends with a slash (Python `a.endswith("/")`). -/
def endsWithSlash (a : String) : Bool :=
  match a.data.getLast? with
  | some c => c = '/'
  | none => false

/-- Python `os.path.join` for a relative second component. -/
def os_path_join (a b : String) : String :=
  if a = "" then b
  else if endsWithSlash a then a ++ b
  else a ++ "/" ++ b

/-- Source `transcribe_audio.save_transcript`: the effect sequence it
performs, in source order, and the triple of paths it returns. -/
def save_transcript (result : TranscriptionResult) (output_dir : String) :
    List Effect × (String × String × String) :=
  let txt_path := os_path_join output_dir "transcript.txt"
  let json_path := os_path_join output_dir "transcript.json"
  let srt_path := os_path_join output_dir "transcript.srt"
  ([Effect.makedirs output_dir true,
    Effect.write txt_path result.text,
    Effect.write json_path (jsonDump result),
    Effect.write srt_path (srt_content result)],
   (txt_path, json_path, srt_path))

/-- Run `save_transcript` against a file system and an oracle: the final
file system, and either the returned path triple or the propagated error
path.  The paths are returned only when every effect succeeded. -/
def run_save_transcript (ok : Effect → Bool) (fs : FS) (result : TranscriptionResult)
    (output_dir : String) : FS × Except String (String × String × String) :=
  match runEffects ok fs (save_transcript result output_dir).1 with
  | (fs2, none) => (fs2, Except.ok (save_transcript result output_dir).2)
  | (fs2, some p) => (fs2, Except.error p)

/-- The oracle under which every effect succeeds. -/
def allOk : Effect → Bool := fun _ => true

/-- Read a file back from the file system. -/
def readFile (fs : FS) (path : String) : Option String := fs.files path

/-- Value of a lowercase hexadecimal digit character. -/
def hexVal (c : Char) : ℕ := if c.toNat ≤ 57 then c.toNat - 48 else c.toNat - 87

/-- Decode the first escape unit produced by `escChar`: the inverse scanner
witnessing that the escaping is uniquely decodable. -/
def unesc : List Char → Option (Char × List Char)
  | [] => none
  | c :: t =>
    if c = '\\' then
      match t with
      | 'u' :: _ :: _ :: h1 :: h2 :: rest => some (Char.ofNat (16 * hexVal h1 + hexVal h2), rest)
      | 'b' :: rest => some ('\x08', rest)
      | 'f' :: rest => some ('\x0c', rest)
      | 'n' :: rest => some ('\n', rest)
      | 'r' :: rest => some ('\r', rest)
      | 't' :: rest => some ('\t', rest)
      | e :: rest => some (e, rest)
      | [] => none
    else some (c, t)

/-
Helper lemmas: string extensionality, path injectivity, and unique
decodability of the JSON string escaping.
-/

theorem ofInt_eq (m : ℤ) : ofInt m = (m : ℚ) := by
  rw [ofInt, Rat.divInt_one]

theorem pymul_eq (a b : ℚ) : pymul a b = a * b := by
  conv_rhs => rw [← Rat.num_divInt_den a, ← Rat.num_divInt_den b]
  rw [Rat.divInt_mul_divInt']
  rfl

theorem pysub_eq (a b : ℚ) : pysub a b = a - b := by
  conv_rhs => rw [← Rat.num_divInt_den a, ← Rat.num_divInt_den b]
  rw [Rat.divInt_sub_divInt _ _ (by exact_mod_cast a.den_nz) (by exact_mod_cast b.den_nz)]
  rfl

theorem pydiv_eq (a b : ℚ) : pydiv a b = a / b := by
  conv_rhs => rw [← Rat.num_divInt_den a, ← Rat.num_divInt_den b]
  rw [Rat.divInt_div_divInt]
  rfl

theorem qneg_eq (a : ℚ) : qneg a = -a := by
  rw [qneg, Rat.neg_def]

theorem string_data_inj {s t : String} (h : s.data = t.data) : s = t := by
  cases s
  cases t
  exact congrArg String.mk h

theorem string_data_append (s t : String) : (s ++ t).data = s.data ++ t.data := rfl

theorem string_append_cancel_left {p a b : String} (h : p ++ a = p ++ b) : a = b := by
  apply string_data_inj
  have hd := congrArg String.data h
  rw [string_data_append, string_data_append] at hd
  exact List.append_cancel_left hd

theorem os_path_join_inj {d a b : String} (h : os_path_join d a = os_path_join d b) : a = b := by
  unfold os_path_join at h
  split_ifs at h
  · exact h
  · exact string_append_cancel_left h
  · exact string_append_cancel_left h

theorem os_path_join_ne {d a b : String} (hab : a ≠ b) :
    os_path_join d a ≠ os_path_join d b :=
  fun h => hab (os_path_join_inj h)

theorem hexVal_digitChar {d : ℕ} (hd : d < 16) : hexVal (Nat.digitChar d) = d := by
  have h16 : ∀ e : Fin 16, hexVal (Nat.digitChar e.val) = e.val := by decide
  exact h16 ⟨d, hd⟩

theorem escChar_ne_nil (c : Char) : escChar c ≠ [] := by
  unfold escChar
  split_ifs <;> simp

theorem unesc_escChar (a : Char) (x : List Char) : unesc (escChar a ++ x) = some (a, x) := by
  unfold escChar
  split_ifs with h1 h2 h3 h4 h5 h6 h7 h8
  · subst h1; rfl
  · subst h2; rfl
  · subst h3; rfl
  · subst h4; rfl
  · subst h5; rfl
  · subst h6; rfl
  · subst h7; rfl
  · show some (Char.ofNat (16 * hexVal (Nat.digitChar (a.toNat / 16)) +
        hexVal (Nat.digitChar (a.toNat % 16))), x) = some (a, x)
    rw [hexVal_digitChar (by omega), hexVal_digitChar (by omega)]
    have hv : 16 * (a.toNat / 16) + a.toNat % 16 = a.toNat := by omega
    rw [hv, Char.ofNat_toNat]
  · simp [unesc, h2]

theorem escL_inj : ∀ {as bs : List Char}, escL as = escL bs → as = bs := by
  intro as
  induction as with
  | nil =>
    intro bs h
    cases bs with
    | nil => rfl
    | cons b bs2 =>
      exfalso
      have h2 : escChar b ++ escL bs2 = [] := by
        simpa [escL] using h.symm
      exact escChar_ne_nil b (List.append_eq_nil.mp h2).1
  | cons a as ih =>
    intro bs h
    cases bs with
    | nil =>
      exfalso
      have h2 : escChar a ++ escL as = [] := by
        simpa [escL] using h
      exact escChar_ne_nil a (List.append_eq_nil.mp h2).1
    | cons b bs2 =>
      have h2 : escChar a ++ escL as = escChar b ++ escL bs2 := h
      have h3 := congrArg unesc h2
      rw [unesc_escChar, unesc_escChar] at h3
      have h4 := Option.some.inj h3
      have hab : a = b := congrArg Prod.fst h4
      have hrest : escL as = escL bs2 := congrArg Prod.snd h4
      rw [hab, ih hrest]

theorem jsonString_inj : Function.Injective jsonString := by
  intro a b h
  have hd := congrArg String.data h
  have hd2 : ('"' :: escL a.data) ++ ['"'] = ('"' :: escL b.data) ++ ['"'] := hd
  have hd3 := List.append_cancel_right hd2
  have hd4 : escL a.data = escL b.data := by
    simpa using hd3
  exact string_data_inj (escL_inj hd4)

/-
Claim theorems.
-/

/-- C1: for every TranscriptionResult, running the export and then reading
back `transcript.txt` yields exactly the result's full text, with no
trailing format markers appended.  (UTF-8 encoding then decoding of the
written content is the identity, so the claim is stated at string level.) -/
theorem save_transcript_txt_readback (result : TranscriptionResult) (output_dir : String)
    (fs : FS) :
    readFile (run_save_transcript allOk fs result output_dir).1
      (os_path_join output_dir "transcript.txt") = some result.text := by
  have hts : os_path_join output_dir "transcript.txt" ≠ os_path_join output_dir "transcript.srt" :=
    os_path_join_ne (by decide)
  have htj : os_path_join output_dir "transcript.txt" ≠ os_path_join output_dir "transcript.json" :=
    os_path_join_ne (by decide)
  simp [run_save_transcript, save_transcript, runEffects, applyEffect, effectFails, allOk,
    readFile, hts, htj]

/-- C2: the subtitle file contains exactly one block per segment, the
blocks appear in the segments' source order, and the block indices are
exactly `1..N`, 1-based and contiguous. -/
theorem save_transcript_srt_blocks (result : TranscriptionResult) :
    (srt_items result.segments).length = result.segments.length
  ∧ (srt_items result.segments).map Prod.fst = List.range' 1 result.segments.length
  ∧ (srt_items result.segments).map Prod.snd = result.segments
  ∧ srt_content result = String.join ((srt_items result.segments).map fun p => srt_block p.1 p.2) := by
  refine ⟨?_, ?_, ?_, rfl⟩
  · simp [srt_items]
  · exact List.map_fst_zip _ _ (by simp)
  · exact List.map_snd_zip _ _ (by simp)

/-- C3: each subtitle block consists of the 1-based index, the line
`<start> --> <end>` in `HH:MM:SS,mmm` form, the segment text trimmed of
leading and trailing whitespace, and a blank line; in particular the
segment with start 5.0, end 7.5 and text " hello " produces, after its
index, the block `\n00:00:05,000 --> 00:00:07,500\nhello\n\n`. -/
theorem srt_block_shape :
    (∀ (i : ℕ) (segment : Segment),
        srt_block i segment =
          toString i ++ "\n" ++ format_time segment.start ++ " --> " ++
            format_time segment.«end» ++ "\n" ++ pystrip segment.text ++ "\n\n")
  ∧ srt_block 1 ⟨ofInt 5, Rat.divInt 15 2, " hello "⟩ =
      "1\n00:00:05,000 --> 00:00:07,500\nhello\n\n" :=
  ⟨fun _ _ => rfl, by decide⟩

/-- C4: the claim that `format_time` always truncates fails on the code.
At the binary64 input 0.11699999999999999 (the rational
131730289100587/2^50) the product `(seconds % 1) * 1000` has exact value
116.99999999999999…, which binary64 rounding turns into exactly 117.0, so
the code prints milliseconds 117, while truncation of the value yields
116: the milliseconds component is rounded up, not truncated. -/
theorem format_time_does_not_truncate :
    toBinary64 (Rat.divInt 11699999999999999 100000000000000000) =
      Rat.divInt 131730289100587 1125899906842624
  ∧ format_time (Rat.divInt 131730289100587 1125899906842624) = "00:00:00,117"
  ∧ pyint (pymul (pymod (Rat.divInt 131730289100587 1125899906842624) (ofInt 1)) (ofInt 1000)) = 116 := by
  decide

/-- C5: of the three claimed values, `format_time 0 = "00:00:00,000"` and
`format_time 59.999 = "00:00:59,999"` hold, but at 3661.234 the code
produces "01:01:01,233", not the claimed "01:01:01,234": the binary64
value of the literal 3661.234 is 3661.23399999999992…, whose fractional
part times 1000 is exactly representable as 233.99999999999992…, and
`int()` truncates it to 233. -/
theorem format_time_spec_values :
    format_time (ofInt 0) = "00:00:00,000"
  ∧ format_time (toBinary64 (Rat.divInt 59999 1000)) = "00:00:59,999"
  ∧ format_time (toBinary64 (Rat.divInt 3661234 1000)) = "01:01:01,233" := by
  decide

/-- C6: `transcript.json` receives the full input result — text, language
and segments, in that insertion order — serialized as the indented
(`indent=2`) human-readable document, with the input fields passed through
unmodified (the string encoder is injective, so nothing is lost), and with
every non-ASCII character preserved literally rather than escaped: the
escaper rewrites only `"`, `\` and the control characters below U+0020. -/
theorem save_transcript_json_faithful (result : TranscriptionResult) (output_dir : String)
    (fs : FS) :
    readFile (run_save_transcript allOk fs result output_dir).1
      (os_path_join output_dir "transcript.json") = some (jsonDump result)
  ∧ jsonDump result =
      "\x7b\n  \"text\": " ++ jsonString result.text ++
        ",\n  \"language\": " ++ jsonString result.language ++
        ",\n  \"segments\": " ++ renderSegments result.segments ++ "\n\x7d"
  ∧ Function.Injective jsonString
  ∧ (∀ c : Char, 32 ≤ c.toNat → c ≠ '"' → c ≠ '\\' → escChar c = [c]) := by
  refine ⟨?_, rfl, jsonString_inj, ?_⟩
  · have hjs : os_path_join output_dir "transcript.json" ≠ os_path_join output_dir "transcript.srt" :=
      os_path_join_ne (by decide)
    simp [run_save_transcript, save_transcript, runEffects, applyEffect, effectFails, allOk,
      readFile, hjs]
  · intro c h32 hq hb
    have h08 : c ≠ '\x08' := fun h => absurd h32 (by subst h; decide)
    have h0c : c ≠ '\x0c' := fun h => absurd h32 (by subst h; decide)
    have h0a : c ≠ '\n' := fun h => absurd h32 (by subst h; decide)
    have h0d : c ≠ '\r' := fun h => absurd h32 (by subst h; decide)
    have h09 : c ≠ '\t' := fun h => absurd h32 (by subst h; decide)
    have hlt : ¬c.toNat < 32 := by omega
    simp [escChar, hq, hb, h08, h0c, h0a, h0d, h09, hlt]

/-- Witness for C6 at a concrete non-ASCII character and result. -/
theorem save_transcript_json_faithful_witness : escChar 'é' = ['é'] :=
  (save_transcript_json_faithful ⟨"t", "l", []⟩ "out" ⟨fun _ => false, fun _ => none⟩).2.2.2 'é'
    (by decide) (by decide) (by decide)

/-- C7: `save_transcript` ensures the output directory exists before any
file write — the `makedirs` effect comes first and every later effect is a
write — the `makedirs` model creates every intermediate directory of a
nested path, and with `exist_ok=True` the step does not fail when the
directory already exists (for every file system, existing or not). -/
theorem save_transcript_dir_provisioning (result : TranscriptionResult) (output_dir : String)
    (fs : FS) :
    (save_transcript result output_dir).1.head? = some (Effect.makedirs output_dir true)
  ∧ (∀ e ∈ (save_transcript result output_dir).1.tail, ∃ p c, e = Effect.write p c)
  ∧ (∀ p ∈ ancestors output_dir, (applyEffect fs (Effect.makedirs output_dir true)).dirs p = true)
  ∧ effectFails fs (Effect.makedirs output_dir true) = false := by
  refine ⟨rfl, ?_, ?_, rfl⟩
  · intro e he
    simp [save_transcript] at he
    rcases he with h | h | h <;> subst h <;> exact ⟨_, _, rfl⟩
  · intro p hp
    simp [applyEffect, hp]

/-- Witness for C7 at a concrete nested path. -/
theorem save_transcript_dir_provisioning_witness :
    ("a" ∈ ancestors "a/b")
  ∧ (applyEffect ⟨fun _ => false, fun _ => none⟩ (Effect.makedirs "a/b" true)).dirs "a" = true :=
  ⟨by decide,
    (save_transcript_dir_provisioning ⟨"t", "l", []⟩ "a/b" ⟨fun _ => false, fun _ => none⟩).2.2.1
      "a" (by decide)⟩

/-- C8: if directory creation or any of the three file writes fails, the
operation fails with a filesystem error carrying exactly the failing path,
propagated unmodified; the three paths are returned only after all effects
succeed; and files written before the failing step are left in place — no
cleanup. -/
theorem save_transcript_failure_propagation (ok : Effect → Bool) (fs : FS)
    (result : TranscriptionResult) (output_dir : String) :
    (ok (Effect.makedirs output_dir true) = false →
       (run_save_transcript ok fs result output_dir).2 = Except.error output_dir
     ∧ (run_save_transcript ok fs result output_dir).1 = fs)
  ∧ (ok (Effect.makedirs output_dir true) = true →
     ok (Effect.write (os_path_join output_dir "transcript.txt") result.text) = false →
       (run_save_transcript ok fs result output_dir).2 =
         Except.error (os_path_join output_dir "transcript.txt"))
  ∧ (ok (Effect.makedirs output_dir true) = true →
     ok (Effect.write (os_path_join output_dir "transcript.txt") result.text) = true →
     ok (Effect.write (os_path_join output_dir "transcript.json") (jsonDump result)) = false →
       (run_save_transcript ok fs result output_dir).2 =
         Except.error (os_path_join output_dir "transcript.json")
     ∧ readFile (run_save_transcript ok fs result output_dir).1
         (os_path_join output_dir "transcript.txt") = some result.text)
  ∧ (ok (Effect.makedirs output_dir true) = true →
     ok (Effect.write (os_path_join output_dir "transcript.txt") result.text) = true →
     ok (Effect.write (os_path_join output_dir "transcript.json") (jsonDump result)) = true →
     ok (Effect.write (os_path_join output_dir "transcript.srt") (srt_content result)) = false →
       (run_save_transcript ok fs result output_dir).2 =
         Except.error (os_path_join output_dir "transcript.srt")
     ∧ readFile (run_save_transcript ok fs result output_dir).1
         (os_path_join output_dir "transcript.txt") = some result.text
     ∧ readFile (run_save_transcript ok fs result output_dir).1
         (os_path_join output_dir "transcript.json") = some (jsonDump result))
  ∧ (ok (Effect.makedirs output_dir true) = true →
     ok (Effect.write (os_path_join output_dir "transcript.txt") result.text) = true →
     ok (Effect.write (os_path_join output_dir "transcript.json") (jsonDump result)) = true →
     ok (Effect.write (os_path_join output_dir "transcript.srt") (srt_content result)) = true →
       (run_save_transcript ok fs result output_dir).2 =
         Except.ok (os_path_join output_dir "transcript.txt",
           os_path_join output_dir "transcript.json",
           os_path_join output_dir "transcript.srt")) := by
  have htj : os_path_join output_dir "transcript.txt" ≠ os_path_join output_dir "transcript.json" :=
    os_path_join_ne (by decide)
  refine ⟨?_, ?_, ?_, ?_, ?_⟩
  · intro h1
    constructor <;>
      simp [run_save_transcript, save_transcript, runEffects, effectFails, effectPath, h1]
  · intro h1 h2
    simp [run_save_transcript, save_transcript, runEffects, applyEffect, effectFails, effectPath, h1, h2]
  · intro h1 h2 h3
    constructor <;>
      simp [run_save_transcript, save_transcript, runEffects, applyEffect, effectFails,
        effectPath, readFile, h1, h2, h3]
  · intro h1 h2 h3 h4
    refine ⟨?_, ?_, ?_⟩ <;>
      simp [run_save_transcript, save_transcript, runEffects, applyEffect, effectFails,
        effectPath, readFile, h1, h2, h3, h4, htj]
  · intro h1 h2 h3 h4
    simp [run_save_transcript, save_transcript, runEffects, applyEffect, effectFails,
      effectPath, h1, h2, h3, h4]

/-- Witness for C8: a run whose json write fails reports the json path and
keeps the already written text file. -/
theorem save_transcript_failure_propagation_witness :
    (run_save_transcript (fun e => !(effectPath e == os_path_join "out" "transcript.json"))
        ⟨fun _ => false, fun _ => none⟩ ⟨"t", "l", []⟩ "out").2 =
      Except.error (os_path_join "out" "transcript.json")
  ∧ readFile (run_save_transcript (fun e => !(effectPath e == os_path_join "out" "transcript.json"))
        ⟨fun _ => false, fun _ => none⟩ ⟨"t", "l", []⟩ "out").1
      (os_path_join "out" "transcript.txt") = some "t" := by
  have h := (save_transcript_failure_propagation
      (fun e => !(effectPath e == os_path_join "out" "transcript.json"))
      ⟨fun _ => false, fun _ => none⟩ ⟨"t", "l", []⟩ "out").2.2.1 (by decide) (by decide) (by decide)
  exact ⟨h.1, h.2⟩

/-- Evaluation of a fully successful run: the directory tree gains the
ancestors of the output directory and the three files hold the three
contents, later writes shadowing earlier ones at equal paths. -/
theorem run_save_all (fs : FS) (result : TranscriptionResult) (output_dir : String) :
    run_save_transcript allOk fs result output_dir =
      ({ dirs := fun q => fs.dirs q || decide (q ∈ ancestors output_dir),
         files := fun q =>
           if q = os_path_join output_dir "transcript.srt" then some (srt_content result)
           else if q = os_path_join output_dir "transcript.json" then some (jsonDump result)
           else if q = os_path_join output_dir "transcript.txt" then some result.text
           else fs.files q },
       Except.ok (os_path_join output_dir "transcript.txt",
         os_path_join output_dir "transcript.json",
         os_path_join output_dir "transcript.srt")) := rfl

/-- C9: re-running the export with the same result and output directory is
idempotent in content: the prior files are overwritten and the second run
leaves every file, every directory and the returned triple byte-identical
to the first run's. -/
theorem save_transcript_idempotent (fs : FS) (result : TranscriptionResult) (output_dir : String) :
    ((run_save_transcript allOk (run_save_transcript allOk fs result output_dir).1
        result output_dir).1).files =
      ((run_save_transcript allOk fs result output_dir).1).files
  ∧ ((run_save_transcript allOk (run_save_transcript allOk fs result output_dir).1
        result output_dir).1).dirs =
      ((run_save_transcript allOk fs result output_dir).1).dirs
  ∧ (run_save_transcript allOk (run_save_transcript allOk fs result output_dir).1
        result output_dir).2 =
      (run_save_transcript allOk fs result output_dir).2 := by
  refine ⟨?_, ?_, rfl⟩
  · funext q
    rw [run_save_all, run_save_all]
    dsimp only
    split_ifs <;> rfl
  · funext q
    rw [run_save_all, run_save_all]
    dsimp only
    cases fs.dirs q <;> cases hq : decide (q ∈ ancestors output_dir) <;> simp [hq]

/-- C10: the writes happen in the fixed order txt, json, srt after the
directory step; when a write fails, every earlier file of that order has
already been fully written and remains, and no later file has been touched
by this invocation. -/
theorem save_transcript_write_order (result : TranscriptionResult) (output_dir : String)
    (ok : Effect → Bool) (fs : FS) :
    (save_transcript result output_dir).1 =
      [Effect.makedirs output_dir true,
       Effect.write (os_path_join output_dir "transcript.txt") result.text,
       Effect.write (os_path_join output_dir "transcript.json") (jsonDump result),
       Effect.write (os_path_join output_dir "transcript.srt") (srt_content result)]
  ∧ (ok (Effect.makedirs output_dir true) = true →
     ok (Effect.write (os_path_join output_dir "transcript.txt") result.text) = false →
       readFile (run_save_transcript ok fs result output_dir).1
         (os_path_join output_dir "transcript.txt") =
         readFile fs (os_path_join output_dir "transcript.txt")
     ∧ readFile (run_save_transcript ok fs result output_dir).1
         (os_path_join output_dir "transcript.json") =
         readFile fs (os_path_join output_dir "transcript.json")
     ∧ readFile (run_save_transcript ok fs result output_dir).1
         (os_path_join output_dir "transcript.srt") =
         readFile fs (os_path_join output_dir "transcript.srt"))
  ∧ (ok (Effect.makedirs output_dir true) = true →
     ok (Effect.write (os_path_join output_dir "transcript.txt") result.text) = true →
     ok (Effect.write (os_path_join output_dir "transcript.json") (jsonDump result)) = false →
       readFile (run_save_transcript ok fs result output_dir).1
         (os_path_join output_dir "transcript.txt") = some result.text
     ∧ readFile (run_save_transcript ok fs result output_dir).1
         (os_path_join output_dir "transcript.json") =
         readFile fs (os_path_join output_dir "transcript.json")
     ∧ readFile (run_save_transcript ok fs result output_dir).1
         (os_path_join output_dir "transcript.srt") =
         readFile fs (os_path_join output_dir "transcript.srt"))
  ∧ (ok (Effect.makedirs output_dir true) = true →
     ok (Effect.write (os_path_join output_dir "transcript.txt") result.text) = true →
     ok (Effect.write (os_path_join output_dir "transcript.json") (jsonDump result)) = true →
     ok (Effect.write (os_path_join output_dir "transcript.srt") (srt_content result)) = false →
       readFile (run_save_transcript ok fs result output_dir).1
         (os_path_join output_dir "transcript.txt") = some result.text
     ∧ readFile (run_save_transcript ok fs result output_dir).1
         (os_path_join output_dir "transcript.json") = some (jsonDump result)
     ∧ readFile (run_save_transcript ok fs result output_dir).1
         (os_path_join output_dir "transcript.srt") =
         readFile fs (os_path_join output_dir "transcript.srt")) := by
  have htj : os_path_join output_dir "transcript.txt" ≠ os_path_join output_dir "transcript.json" :=
    os_path_join_ne (by decide)
  have hts : os_path_join output_dir "transcript.txt" ≠ os_path_join output_dir "transcript.srt" :=
    os_path_join_ne (by decide)
  have hjs : os_path_join output_dir "transcript.json" ≠ os_path_join output_dir "transcript.srt" :=
    os_path_join_ne (by decide)
  refine ⟨rfl, ?_, ?_, ?_⟩
  · intro h1 h2
    refine ⟨?_, ?_, ?_⟩ <;>
      simp [run_save_transcript, save_transcript, runEffects, applyEffect, effectFails,
        readFile, h1, h2]
  · intro h1 h2 h3
    refine ⟨?_, ?_, ?_⟩ <;>
      simp [run_save_transcript, save_transcript, runEffects, applyEffect, effectFails,
        readFile, h1, h2, h3, htj, htj.symm, hts, hts.symm]
  · intro h1 h2 h3 h4
    refine ⟨?_, ?_, ?_⟩ <;>
      simp [run_save_transcript, save_transcript, runEffects, applyEffect, effectFails,
        readFile, h1, h2, h3, h4, htj, htj.symm, hts, hjs, hts.symm, hjs.symm]

/-- Witness for C10: a run whose srt write fails keeps the txt and json
files it wrote earlier and never creates the srt file. -/
theorem save_transcript_write_order_witness :
    readFile (run_save_transcript (fun e => !(effectPath e == os_path_join "out" "transcript.srt"))
        ⟨fun _ => false, fun _ => none⟩ ⟨"t", "l", []⟩ "out").1
      (os_path_join "out" "transcript.txt") = some "t"
  ∧ readFile (run_save_transcript (fun e => !(effectPath e == os_path_join "out" "transcript.srt"))
        ⟨fun _ => false, fun _ => none⟩ ⟨"t", "l", []⟩ "out").1
      (os_path_join "out" "transcript.json") = some (jsonDump ⟨"t", "l", []⟩)
  ∧ readFile (run_save_transcript (fun e => !(effectPath e == os_path_join "out" "transcript.srt"))
        ⟨fun _ => false, fun _ => none⟩ ⟨"t", "l", []⟩ "out").1
      (os_path_join "out" "transcript.srt") = none := by
  have h := (save_transcript_write_order ⟨"t", "l", []⟩ "out"
      (fun e => !(effectPath e == os_path_join "out" "transcript.srt"))
      ⟨fun _ => false, fun _ => none⟩).2.2.2 (by decide) (by decide) (by decide) (by decide)
  exact ⟨h.1, h.2.1, h.2.2⟩
